import Mathlib

/-!
# Verification of the aida voice-session engine

A shallow embedding, in Lean 4, of the parts of the `aida` voice assistant
that the specification's testable claims are about:

* `services/stt_service.py` — `STTService`: the streaming transcription
  client (connect / reconnect / keepalive / close, `process_audio`,
  `_handle_transcript_result`, `_handle_connection_error`);
* `modes/voice_mode.py` — `VoiceMode`: the session orchestrator
  (`run`, `handle_conversation` capture loop, `_handle_transcript`);
* `core/assistant.py` — `AidaAssistant.process_input`;
* `utils/timer.py` — `InactivityTimer`.

Python strings are modelled as `String`, byte payloads as `List Nat`
(one entry per byte, each < 256), awaited external outcomes (socket
sends, websocket connects, LLM calls) as explicit outcome parameters,
and exceptions surfaced to a caller as `Option`/dedicated fields — the
embedded functions record an exception only where the Python code lets
one escape.
-/

namespace Aida

/-! ## Python `str.strip` -/

/-- The characters Python's `str.strip()` removes: space, tab, newline,
carriage return, vertical tab, form feed. -/
def isPySpace (c : Char) : Bool :=
  c = ' ' || c = '\t' || c = '\n' || c = '\r' || c = '\x0b' || c = '\x0c'

/-- Strip leading and trailing whitespace from a character list. -/
def stripChars (l : List Char) : List Char :=
  ((l.dropWhile isPySpace).reverse.dropWhile isPySpace).reverse

/-- Python `s.strip()`. -/
def pyStrip (s : String) : String :=
  ⟨stripChars s.data⟩

theorem dropWhile_head_not {α : Type} (p : α → Bool) :
    ∀ (l : List α) (a : α) (rest : List α),
      l.dropWhile p = a :: rest → p a = false := by
  intro l
  induction l with
  | nil => intro a rest h; simp [List.dropWhile] at h
  | cons x xs ih =>
    intro a rest h
    by_cases hx : p x = true
    · rw [List.dropWhile_cons_of_pos hx] at h
      exact ih a rest h
    · rw [List.dropWhile_cons_of_neg hx] at h
      cases h
      simpa using hx

theorem dropWhile_of_head_not {α : Type} (p : α → Bool) (a : α) (rest : List α)
    (h : p a = false) : (a :: rest).dropWhile p = a :: rest :=
  List.dropWhile_cons_of_neg (by simp [h])

theorem dropWhile_append_last_not {α : Type} (p : α → Bool) (a : α)
    (h : p a = false) :
    ∀ ys : List α, (ys ++ [a]).dropWhile p = ys.dropWhile p ++ [a] := by
  intro ys
  induction ys with
  | nil => simp [dropWhile_of_head_not p a [] h]
  | cons y ys ih =>
    by_cases hy : p y = true
    · rw [List.cons_append, List.dropWhile_cons_of_pos hy,
        List.dropWhile_cons_of_pos hy, ih]
    · rw [List.cons_append, List.dropWhile_cons_of_neg hy,
        List.dropWhile_cons_of_neg hy]
      simp

/-- Stripping is idempotent: the first and last characters of a stripped
list are not whitespace, so a second strip removes nothing. -/
theorem stripChars_idem (l : List Char) : stripChars (stripChars l) = stripChars l := by
  unfold stripChars
  cases hd : l.dropWhile isPySpace with
  | nil => simp [hd]
  | cons a as =>
    have ha : isPySpace a = false := dropWhile_head_not isPySpace l a as hd
    have hrev : (a :: as).reverse = as.reverse ++ [a] := by simp
    rw [hrev, dropWhile_append_last_not isPySpace a ha as.reverse]
    set w := as.reverse.dropWhile isPySpace with hw
    have hwrev : (w ++ [a]).reverse = a :: w.reverse := by simp
    rw [hwrev, dropWhile_of_head_not isPySpace a w.reverse ha]
    have hback : (a :: w.reverse).reverse = w ++ [a] := by simp
    rw [hback]
    cases hwc : w with
    | nil => simp [dropWhile_of_head_not isPySpace a [] ha]
    | cons c cs =>
      have hc : isPySpace c = false := dropWhile_head_not isPySpace as.reverse c cs (hw ▸ hwc)
      rw [List.cons_append, List.dropWhile_cons_of_neg (by simp [hc])]
      simp

theorem pyStrip_idem (s : String) : pyStrip (pyStrip s) = pyStrip s := by
  unfold pyStrip
  exact congrArg String.mk (stripChars_idem s.data)

/-! ## Inbound transcription messages

From §6 of the spec and `STTService._process_message` /
`_handle_transcript_result` (`services/stt_service.py`). A `Results`
message carries `is_final` and a channel with a list of alternatives,
each an object with `transcript` and `confidence`. -/

/-- One entry of `channel.alternatives` in a Deepgram `Results` message. -/
structure Alternative where
  transcript : String
  confidence : Rat
  deriving Repr, DecidableEq

/-- A `Results` message: `is_final` plus `channel.alternatives`. -/
structure ResultsMsg where
  is_final : Bool
  alternatives : List Alternative
  deriving Repr, DecidableEq

/-- An inbound protocol message as routed by `STTService._process_message`:
`Results` goes to transcript handling, `Error` and `Warning` are logged,
anything else is ignored. -/
inductive InboundMsg where
  | results (r : ResultsMsg)
  | errorMsg
  | warningMsg
  | other
  deriving Repr, DecidableEq

/-- The dict `STTService._handle_transcript_result` passes to the
transcript callback. -/
structure TranscriptEvent where
  transcript : String
  is_final : Bool
  confidence : Rat
  deriving Repr, DecidableEq

/-- `STTService._handle_transcript_result`: if the alternatives list is
non-empty, strip the first alternative's transcript; if the stripped
transcript is non-empty (and a callback is installed, which
`initialize` guarantees), invoke the callback with
`{transcript, is_final, confidence}`. Returns the event delivered to
the callback, or `none` when no callback call happens. -/
def handleTranscriptResult (result : ResultsMsg) : Option TranscriptEvent :=
  match result.alternatives with
  | [] => none
  | alt :: _ =>
    let transcript := pyStrip alt.transcript
    if transcript ≠ "" then
      some { transcript := transcript
             is_final := result.is_final
             confidence := alt.confidence }
    else
      none

/-- `STTService._process_message`: only `Results` messages reach the
transcript callback; `Error`/`Warning`/unknown messages are logged or
dropped without producing a callback event. -/
def processMessage : InboundMsg → Option TranscriptEvent
  | .results r => handleTranscriptResult r
  | .errorMsg => none
  | .warningMsg => none
  | .other => none

/-- `VoiceMode._handle_transcript`: only events with `is_final` truthy and
a non-empty stripped transcript are handed to
`assistant.process_input`. Returns the utterance handed to the LLM
entry point, or `none`. -/
def voiceHandleTranscript (ev : TranscriptEvent) : Option String :=
  if ev.is_final then
    let transcript := pyStrip ev.transcript
    if transcript ≠ "" then some transcript else none
  else
    none

/-- The full inbound path of one message: receiver → `_process_message` →
transcript callback (`VoiceMode._handle_transcript`) → LLM entry point.
`some u` means `process_input u` is called for this message. -/
def llmUtterance (m : InboundMsg) : Option String :=
  (processMessage m).bind voiceHandleTranscript

/-- The utterances handed to `process_input` by a sequence of inbound
messages, in arrival order. Each message is handled independently:
`VoiceMode._handle_transcript` keeps no buffer across messages. -/
def emittedUtterances (ms : List InboundMsg) : List String :=
  ms.filterMap llmUtterance

/-- The space-joined concatenation of a list of fragments, as the spec's
segmenter contract describes. -/
def spaceJoin (l : List String) : String :=
  String.intercalate " " l

/-! ## STTService state (`services/stt_service.py`)

The mutable fields of `STTService` that the claims touch, plus the two
spawned background tasks. The api key, callback, locks and
`_last_audio_time` bookkeeping carry no claim-relevant behaviour beyond
what is modelled. -/

/-- The observable status of one `asyncio.Task`. -/
inductive TaskStatus where
  | running
  | finished
  | cancelled
  deriving Repr, DecidableEq

/-- A task is terminal when `done()` is true: finished or cancelled. -/
def TaskStatus.isTerminal : TaskStatus → Bool
  | .running => false
  | .finished => true
  | .cancelled => true

/-- `STTService.close`'s per-task step: if a task exists and is not done,
cancel it and await its termination (the `CancelledError` is swallowed);
a task that is already done, or absent, is left untouched. -/
def cancelTask : Option TaskStatus → Option TaskStatus
  | some .running => some .cancelled
  | t => t

/-- The claim-relevant state of an `STTService` object.

`websocket = none` means `self.websocket is None`; `some b` means a
handle exists and `b` says whether the socket is still open
(`not self.websocket.closed`). -/
structure STTState where
  /-- `self.connection_alive.is_set()` -/
  connectionAlive : Bool
  /-- `self.websocket`: `none` = no handle, `some b` = handle with open-flag `b` -/
  websocket : Option Bool
  /-- `self.keepalive_task` -/
  keepaliveTask : Option TaskStatus
  /-- `self.message_handler_task` -/
  messageHandlerTask : Option TaskStatus
  /-- `self._reconnect_attempts` -/
  reconnectAttempts : Nat
  /-- `self._last_audio_time` -/
  lastAudioTime : Nat
  deriving Repr, DecidableEq

/-- `self.MAX_RECONNECT_ATTEMPTS` -/
def MAX_RECONNECT_ATTEMPTS : Nat := 5

/-- `self.RECONNECT_DELAY` (seconds) -/
def RECONNECT_DELAY : Nat := 2

/-- The external outcome of one `STTService.connect` call:
the `websockets.connect` dial raises, or it succeeds but the ping/pong
verification fails, or both succeed. -/
inductive ConnectOutcome where
  | success
  | dialFails
  | verifyFails
  deriving Repr, DecidableEq

/-- `STTService.cleanup_connection`: best-effort `CloseStream` send and
socket close (exceptions swallowed), then `self.websocket = None` and
`self.connection_alive.clear()`. -/
def cleanupConnection (s : STTState) : STTState :=
  { s with websocket := none, connectionAlive := false }

/-- `STTService.connect`: if a websocket handle exists, run
`cleanup_connection` first; then dial. On a dial failure the exception
is caught and `False` returned. If the dial succeeds but the ping
verification fails, the new handle is kept but `connection_alive` is
not set and `False` is returned. On success `connection_alive` is set,
any undone previous handler/keepalive tasks are cancelled, fresh ones
are spawned, and `True` is returned. `connect` itself never touches
`_reconnect_attempts`. -/
def connectSvc (s : STTState) (o : ConnectOutcome) : STTState × Bool :=
  let s := if s.websocket.isSome then cleanupConnection s else s
  match o with
  | .dialFails => (s, false)
  | .verifyFails => ({ s with websocket := some true }, false)
  | .success =>
    ({ s with websocket := some true
              connectionAlive := true
              messageHandlerTask := some .running
              keepaliveTask := some .running }, true)

/-- What one `_handle_connection_error` call did. `surfacedError` is the
exception (if any) the call lets escape to its caller; the Python
function catches everything it awaits, so it is always `none`. -/
structure HandlerOut where
  state : STTState
  /-- seconds slept as backoff (`RECONNECT_DELAY * attempt_index`), 0 if none -/
  sleptSeconds : Nat
  /-- whether `connect()` was invoked -/
  connectAttempted : Bool
  /-- exception propagated to the caller -/
  surfacedError : Option String
  deriving Repr, DecidableEq

/-- `STTService._handle_connection_error`: clear `connection_alive`; if
`_reconnect_attempts < MAX_RECONNECT_ATTEMPTS`, increment the counter,
sleep `RECONNECT_DELAY * attempts`, and try `connect()` once — on
success reset the counter to 0 and return; otherwise fall through to a
log line. At or above the cap it only logs "Max reconnection attempts
reached" and returns normally. Nothing is ever raised. -/
def handleConnectionError (s : STTState) (o : ConnectOutcome) : HandlerOut :=
  let s := { s with connectionAlive := false }
  if s.reconnectAttempts < MAX_RECONNECT_ATTEMPTS then
    let attempts := s.reconnectAttempts + 1
    let waitTime := RECONNECT_DELAY * attempts
    let s := { s with reconnectAttempts := attempts }
    let (s2, ok) := connectSvc s o
    if ok then
      { state := { s2 with reconnectAttempts := 0 }
        sleptSeconds := waitTime
        connectAttempted := true
        surfacedError := none }
    else
      { state := s2
        sleptSeconds := waitTime
        connectAttempted := true
        surfacedError := none }
  else
    { state := s, sleptSeconds := 0, connectAttempted := false, surfacedError := none }

/-- The external outcome of `self.websocket.send(audio_data)`:
delivered, `ConnectionClosed` raised, or some other exception raised. -/
inductive SendOutcome where
  | delivered
  | connClosed
  | otherError
  deriving Repr, DecidableEq

/-- What one `process_audio` call did. `sent` lists the audio payloads
this call put on the socket (the service has no queue field: a payload
not sent by its own call is gone). -/
structure AudioOut where
  state : STTState
  sent : List (List Nat)
  returned : Bool
  /-- whether `_handle_connection_error` was invoked -/
  handlerInvoked : Bool
  sleptSeconds : Nat
  connectAttempted : Bool
  deriving Repr, DecidableEq

/-- `STTService.process_audio`: if `connection_alive` is clear, call
`_handle_connection_error` and return `False` without sending; else if
the websocket handle exists and is open, send the audio, stamp
`_last_audio_time`, and return `True` — a `ConnectionClosed` raised by
the send goes to `_handle_connection_error` and returns `False`, any
other exception is logged and returns `False`; else (no handle, or
closed) call `_handle_connection_error` and return `False`. -/
def processAudio (s : STTState) (audio : List Nat) (now : Nat)
    (sendOut : SendOutcome) (connOut : ConnectOutcome) : AudioOut :=
  if s.connectionAlive = false then
    let h := handleConnectionError s connOut
    { state := h.state, sent := [], returned := false
      handlerInvoked := true, sleptSeconds := h.sleptSeconds
      connectAttempted := h.connectAttempted }
  else
    match s.websocket with
    | some true =>
      match sendOut with
      | .delivered =>
        { state := { s with lastAudioTime := now }, sent := [audio], returned := true
          handlerInvoked := false, sleptSeconds := 0, connectAttempted := false }
      | .connClosed =>
        let h := handleConnectionError s connOut
        { state := h.state, sent := [], returned := false
          handlerInvoked := true, sleptSeconds := h.sleptSeconds
          connectAttempted := h.connectAttempted }
      | .otherError =>
        { state := s, sent := [], returned := false
          handlerInvoked := false, sleptSeconds := 0, connectAttempted := false }
    | _ =>
      let h := handleConnectionError s connOut
      { state := h.state, sent := [], returned := false
        handlerInvoked := true, sleptSeconds := h.sleptSeconds
        connectAttempted := h.connectAttempted }

/-- `STTService.close`: clear `connection_alive`; for each of the
keepalive and message-handler tasks, cancel-and-await if not done
(all exceptions swallowed); finally `cleanup_connection`. The function
raises nothing. -/
def closeSvc (s : STTState) : STTState :=
  let s := { s with connectionAlive := false }
  let s := { s with keepaliveTask := cancelTask s.keepaliveTask
                    messageHandlerTask := cancelTask s.messageHandlerTask }
  cleanupConnection s

/-! ## The capture loop (`VoiceMode.handle_conversation`)

One iteration of the `while not self.shutdown_event.is_set() and
self.is_listening` loop, reading a 1024-sample (2048-byte) frame of
16-bit little-endian PCM. -/

/-- `int.from_bytes(frames[i:i+2], 'little', signed=True)` for a
two-byte slice. Byte values are < 256. -/
def int16OfBytes (lo hi : Nat) : Int :=
  let u : Nat := lo + 256 * hi
  if u < 32768 then (u : Int) else (u : Int) - 65536

/-- The signed samples of a byte buffer, sliced two bytes at a time as
the loop's generator does; a trailing odd byte decodes as a one-byte
signed integer (`frames[i:i+2]` of length 1). -/
def pairSamples : List Nat → List Int
  | lo :: hi :: rest => int16OfBytes lo hi :: pairSamples rest
  | [b] => [if b < 128 then (b : Int) else (b : Int) - 256]
  | [] => []

/-- `audio_level = max(abs(sample) for each 16-bit slice)`. The loop
always reads 2048-byte frames, so the buffer is non-empty and the
`0` seed of the fold never masks Python's `max`-on-empty error. -/
def audioLevel (frames : List Nat) : Nat :=
  ((pairSamples frames).map Int.natAbs).foldl Nat.max 0

/-- The silence filler payload `b'\x00' * 2048` the loop sends while the
`processing_response` branch is taken. -/
def fillerFrame : List Nat := List.replicate 2048 0

/-- The local variable `processing_response` of `handle_conversation`:
initialized to `False` just before the loop and never reassigned
anywhere in the function body, so it holds `false` at every iteration.
(The instance attribute `self.processing_response` written by
`_handle_transcript` is a different variable.) -/
def handleConversationLocalFlag : Bool := false

/-- What one iteration of the capture loop did. `sentToSTT` lists the
payloads submitted to `stt_service.process_audio` this iteration. -/
structure IterOut where
  sentToSTT : List (List Nat)
  silenceCounter : Nat
  isListening : Bool
  /-- whether the iteration read a real microphone frame -/
  readRealFrame : Bool
  /-- whether the frame entered the silence-detection accounting -/
  silenceAccounted : Bool
  deriving Repr, DecidableEq

/-- One iteration of the `handle_conversation` capture loop, branching on
the local `processing_response` flag: if it is set, submit a 2048-byte
zero filler to `process_audio`, sleep, and continue (no read, no
silence accounting); otherwise read a frame, compute `audio_level`,
reset the silence counter if the level exceeds 200 else increment it,
end the session once the counter exceeds 100 (nothing submitted), and
otherwise submit the real frame to `process_audio`. The boolean
`process_audio` returns only selects between `sleep(0.1)`/`continue`
and `sleep(0.001)`; it changes no loop state, so it is not a
parameter here. -/
def conversationIter (localFlag : Bool) (silenceCounter : Nat)
    (frames : List Nat) : IterOut :=
  if localFlag then
    { sentToSTT := [fillerFrame], silenceCounter := silenceCounter
      isListening := true, readRealFrame := false, silenceAccounted := false }
  else
    let lvl := audioLevel frames
    let sc := if 200 < lvl then 0 else silenceCounter + 1
    if 100 < sc then
      { sentToSTT := [], silenceCounter := sc, isListening := false
        readRealFrame := true, silenceAccounted := true }
    else
      { sentToSTT := [frames], silenceCounter := sc, isListening := true
        readRealFrame := true, silenceAccounted := true }

/-- The iteration as the code actually executes it: the branch condition
is the local `processing_response` (constant `false`), so the value of
the instance attribute `self.processing_response` — the playback flag
`_handle_transcript` sets while a reply is processed and spoken — does
not enter the control flow at all. -/
def conversationIterAsExecuted (_selfProcessingResponse : Bool)
    (silenceCounter : Nat) (frames : List Nat) : IterOut :=
  conversationIter handleConversationLocalFlag silenceCounter frames

/-! ## `VoiceMode.run` initialization (`modes/voice_mode.py`) -/

/-- What `VoiceMode.run` did before and instead of entering its
conversation loop. -/
structure RunOutcome where
  /-- number of `wake_word_detector.initialize()` calls made by `run` -/
  wakeInitCalls : Nat
  /-- whether "Failed to initialize wake word detector" was logged -/
  loggedFailure : Bool
  /-- whether the `while not self.shutdown_event.is_set()` loop was entered -/
  enteredConversationLoop : Bool
  /-- whether `run` let an exception escape -/
  raised : Bool
  deriving Repr, DecidableEq

/-- `VoiceMode.run` up to the conversation loop: initialize playback
(an exception here is caught by the outer handler, logged, and `run`
returns); then call `wake_word_detector.initialize()` once — if it
returns `False`, log the failure and return without entering the loop
and without any further `initialize()` call; otherwise enter the
wake-word/conversation loop. -/
def voiceRun (playbackInitRaises : Bool) (wakeInitOk : Bool) : RunOutcome :=
  if playbackInitRaises then
    { wakeInitCalls := 0, loggedFailure := false
      enteredConversationLoop := false, raised := false }
  else if wakeInitOk then
    { wakeInitCalls := 1, loggedFailure := false
      enteredConversationLoop := true, raised := false }
  else
    { wakeInitCalls := 1, loggedFailure := true
      enteredConversationLoop := false, raised := false }

/-! ## `AidaAssistant.process_input` (`core/assistant.py`) -/

/-- The outcome of awaiting an external coroutine under
`asyncio.wait_for`: a value, a `TimeoutError`, or another exception. -/
inductive AwaitOutcome (α : Type) where
  | ok (a : α)
  | timedOut
  | raised
  deriving Repr, DecidableEq

/-- The `timeout=60.0` passed to `asyncio.wait_for` around the Claude
call in `process_input` (seconds). -/
def LLM_TURN_TIMEOUT : Nat := 60

/-- The apology returned when the Claude call exceeds the 60 s budget. -/
def apologyTimeout : String :=
  "I apologize, but I'm taking longer than expected to process your request. Would you like me to try again with a simpler query?"

/-- The apology returned when Claude's response is empty or whitespace. -/
def apologyEmpty : String :=
  "I apologize, but I received an empty response. Please try again."

/-- The apology the outer `except Exception` handler returns. -/
def apologyError : String :=
  "I apologize, but I encountered an error processing your request. Please try again."

/-- `AidaAssistant.process_input`: fetch recent context with a 3 s
`wait_for` (a timeout falls back to no context; any other exception
reaches the outer handler); await the Claude call with a 60 s
`wait_for` (timeout → `apologyTimeout`; other exception → outer
handler); an empty or whitespace response → `apologyEmpty`; await the
background-storage kickoff with a 5 s `wait_for` (timeout → continue;
other exception → outer handler); else return the response. The outer
`except Exception` converts anything raised into `apologyError`, so
the function always returns a string. -/
def processInput (ctxOutcome : AwaitOutcome String)
    (llmOutcome : AwaitOutcome String) (storeOutcome : AwaitOutcome Unit) : String :=
  match ctxOutcome with
  | .raised => apologyError
  | _ =>
    match llmOutcome with
    | .timedOut => apologyTimeout
    | .raised => apologyError
    | .ok response =>
      if pyStrip response = "" then
        apologyEmpty
      else
        match storeOutcome with
        | .raised => apologyError
        | _ => response

/-! ## `InactivityTimer` (`utils/timer.py`) and its use by `VoiceMode` -/

/-- `settings.INACTIVITY_TIMEOUT` (seconds). -/
def INACTIVITY_TIMEOUT : Nat := 300

/-- `settings.WARNING_PROMPT_TIME` (seconds). -/
def WARNING_PROMPT_TIME : Nat := 250

/-- The two `threading.Timer`s of an `InactivityTimer`: `some d` is a
pending timer whose deadline is the absolute time `d`; `none` is no
pending timer (never created, or cancelled). -/
structure TimerState where
  /-- deadline of `self.inactivity_timer` -/
  inactivityDeadline : Option Nat
  /-- deadline of `self.warning_timer` -/
  warningDeadline : Option Nat
  deriving Repr, DecidableEq

/-- `InactivityTimer.__init__`: both timers are `None`. -/
def timerInit : TimerState :=
  { inactivityDeadline := none, warningDeadline := none }

/-- `InactivityTimer.reset` called at time `now`: cancel both timers,
then arm the inactivity timer for `now + INACTIVITY_TIMEOUT` and the
warning timer for `now + WARNING_PROMPT_TIME`. (`start` just calls
`reset`.) -/
def timerReset (now : Nat) (_t : TimerState) : TimerState :=
  { inactivityDeadline := some (now + INACTIVITY_TIMEOUT)
    warningDeadline := some (now + WARNING_PROMPT_TIME) }

/-- `InactivityTimer.stop`: cancel both timers. -/
def timerStop (_t : TimerState) : TimerState :=
  { inactivityDeadline := none, warningDeadline := none }

/-- The effect of one completed voice turn on `self.timer`: the turn path
(`run`'s loop body, `listen_for_wake_word`, `handle_conversation`,
`_handle_transcript`, `speak`) contains no call to any `self.timer`
method — the only `self.timer` call in `modes/voice_mode.py` is
`self.timer.stop()` inside `cleanup` — so a completed turn leaves the
timer state unchanged. -/
def voiceTurnTimer (t : TimerState) : TimerState := t

/-- The effect of `VoiceMode.cleanup` on `self.timer`:
`self.timer.stop()`. -/
def voiceCleanupTimer (t : TimerState) : TimerState := timerStop t

/-- A background task slot is safe after close when it is absent or in a
terminal state. -/
def taskDoneOrAbsent : Option TaskStatus → Bool
  | none => true
  | some t => t.isTerminal

/-! ## Theorems -/

/-- An inbound `Results` message with `is_final = false` never produces an
LLM call: `_handle_transcript_result` may forward it to the callback,
but `_handle_transcript` drops every non-final event. -/
theorem llmUtterance_nonfinal (r : ResultsMsg) (h : r.is_final = false) :
    llmUtterance (InboundMsg.results r) = none := by
  simp only [llmUtterance, processMessage]
  unfold handleTranscriptResult
  cases halts : r.alternatives with
  | nil => rfl
  | cons alt rest =>
    by_cases hne : pyStrip alt.transcript = ""
    · simp [hne]
    · simp [hne, voiceHandleTranscript, h]

/-- A final `Results` message whose first alternative strips to a
non-empty transcript produces exactly one LLM call, carrying that
stripped transcript. -/
theorem llmUtterance_final (r : ResultsMsg) (alt : Alternative)
    (rest : List Alternative) (hfin : r.is_final = true)
    (halts : r.alternatives = alt :: rest)
    (hne : pyStrip alt.transcript ≠ "") :
    llmUtterance (InboundMsg.results r) = some (pyStrip alt.transcript) := by
  simp only [llmUtterance, processMessage]
  unfold handleTranscriptResult
  simp only [halts]
  simp [hne, voiceHandleTranscript, hfin, pyStrip_idem]

/-- C1 is false on the code as stated: `VoiceMode._handle_transcript`
keeps no buffer, so a turn whose `Results` stream contains two final
fragments hands two separate utterances to the LLM instead of one
space-joined utterance. Concretely, for the stream
interim "What", final "hello", final "world", the emitted utterances
are `["hello", "world"]`, not `["hello world"]`. -/
theorem emittedUtterances_two_finals_not_joined :
    emittedUtterances
        [InboundMsg.results { is_final := false, alternatives := [{ transcript := "What", confidence := 0 }] },
         InboundMsg.results { is_final := true, alternatives := [{ transcript := "hello", confidence := 0 }] },
         InboundMsg.results { is_final := true, alternatives := [{ transcript := "world", confidence := 0 }] }] ≠
      [spaceJoin ["hello", "world"]] ∧
    emittedUtterances
        [InboundMsg.results { is_final := false, alternatives := [{ transcript := "What", confidence := 0 }] },
         InboundMsg.results { is_final := true, alternatives := [{ transcript := "hello", confidence := 0 }] },
         InboundMsg.results { is_final := true, alternatives := [{ transcript := "world", confidence := 0 }] }] =
      ["hello", "world"] := by
  constructor
  · decide
  · decide

/-- C1 amended: for a turn consisting of zero or more interim fragments
followed by exactly ONE final fragment whose first alternative strips
to a non-empty transcript, the pipeline hands exactly one utterance to
the LLM, equal to that final fragment's stripped transcript; the
interim fragments contribute nothing. (Each further final fragment
would be emitted separately — there is no accumulation.) -/
theorem emittedUtterances_single_final (pre : List ResultsMsg)
    (fin : ResultsMsg) (alt : Alternative) (rest : List Alternative)
    (hpre : ∀ m ∈ pre, m.is_final = false)
    (hfin : fin.is_final = true)
    (halts : fin.alternatives = alt :: rest)
    (hne : pyStrip alt.transcript ≠ "") :
    emittedUtterances (pre.map InboundMsg.results ++ [InboundMsg.results fin]) =
      [pyStrip alt.transcript] := by
  unfold emittedUtterances
  rw [List.filterMap_append]
  have hpre' : (pre.map InboundMsg.results).filterMap llmUtterance = [] := by
    induction pre with
    | nil => rfl
    | cons m ms ih =>
      have hm : m.is_final = false := hpre m (List.mem_cons_self m ms)
      simp only [List.map_cons, List.filterMap_cons,
        llmUtterance_nonfinal m hm]
      exact ih (fun x hx => hpre x (List.mem_cons_of_mem m hx))
  rw [hpre']
  simp [List.filterMap_cons, llmUtterance_final fin alt rest hfin halts hne]

/-- Witness for the amended C1 theorem at a concrete turn:
interim " What" then final " hello there " emits exactly
`["hello there"]`. -/
theorem emittedUtterances_single_final_witness :
    emittedUtterances
        [InboundMsg.results { is_final := false, alternatives := [{ transcript := " What", confidence := 0 }] },
         InboundMsg.results { is_final := true, alternatives := [{ transcript := " hello there ", confidence := 1/2 }] }] =
      [pyStrip " hello there "] := by
  have h := emittedUtterances_single_final
    [{ is_final := false, alternatives := [{ transcript := " What", confidence := 0 }] }]
    { is_final := true, alternatives := [{ transcript := " hello there ", confidence := 1/2 }] }
    { transcript := " hello there ", confidence := 1/2 } []
    (by intro m hm; simp at hm; subst hm; rfl)
    rfl rfl (by decide)
  simpa using h

/-- Characterization of `_handle_transcript`'s forwarding decision. -/
theorem voiceHandleTranscript_eq_some (ev : TranscriptEvent) (t : String) :
    voiceHandleTranscript ev = some t ↔
      ev.is_final = true ∧ pyStrip ev.transcript ≠ "" ∧ t = pyStrip ev.transcript := by
  unfold voiceHandleTranscript
  by_cases hf : ev.is_final
  · by_cases h : pyStrip ev.transcript = "" <;> simp [hf, h, eq_comm]
  · simp [hf]

/-- Characterization of `_handle_transcript_result`'s callback decision. -/
theorem handleTranscriptResult_eq_some (r : ResultsMsg) (ev : TranscriptEvent) :
    handleTranscriptResult r = some ev ↔
      ∃ alt rest, r.alternatives = alt :: rest ∧ pyStrip alt.transcript ≠ "" ∧
        ev = { transcript := pyStrip alt.transcript
               is_final := r.is_final
               confidence := alt.confidence } := by
  unfold handleTranscriptResult
  cases halts : r.alternatives with
  | nil => simp
  | cons alt rest =>
    by_cases hne : pyStrip alt.transcript = ""
    · simp [hne]
    · simp [hne]
      exact eq_comm

/-- C9: no partial or malformed transcript ever reaches the LLM entry
point — whenever the inbound path calls `process_input` with an
utterance `t`, the message was a `Results` message with
`is_final = true` and `t` is non-empty. -/
theorem llmUtterance_only_final_nonempty (m : InboundMsg) (t : String)
    (h : llmUtterance m = some t) :
    (∃ r, m = InboundMsg.results r ∧ r.is_final = true) ∧ t ≠ "" := by
  cases m with
  | errorMsg => simp [llmUtterance, processMessage] at h
  | warningMsg => simp [llmUtterance, processMessage] at h
  | other => simp [llmUtterance, processMessage] at h
  | results r =>
    simp only [llmUtterance, processMessage] at h
    rcases Option.bind_eq_some.mp h with ⟨ev, hev, hvt⟩
    rcases (handleTranscriptResult_eq_some r ev).mp hev with
      ⟨alt, rest, _halts, hne, hevdef⟩
    rcases (voiceHandleTranscript_eq_some ev t).mp hvt with ⟨hfin, _, ht⟩
    subst hevdef
    refine ⟨⟨r, rfl, hfin⟩, ?_⟩
    subst ht
    simpa [pyStrip_idem] using hne

/-- Witness for C9 at a concrete message: the final `Results` message
with transcript " hi " reaches the LLM as the non-empty "hi". -/
theorem llmUtterance_only_final_nonempty_witness :
    (∃ r, InboundMsg.results
        { is_final := true, alternatives := [{ transcript := " hi ", confidence := 0 }] } =
          InboundMsg.results r ∧ r.is_final = true) ∧ ("hi" : String) ≠ "" :=
  llmUtterance_only_final_nonempty
    (InboundMsg.results { is_final := true, alternatives := [{ transcript := " hi ", confidence := 0 }] })
    "hi" (by decide)

/-- C2 (the code bug, evaluated): with the playback flag
`self.processing_response = true` (a reply is being spoken) and a real
2-byte frame `[16, 1]` (one sample of amplitude 272, above the 200
threshold), the capture-loop iteration as executed still reads the
real frame, forwards it to `process_audio`, and runs silence
accounting on it — because the branch tests the local
`processing_response`, which is constantly `false`, instead of the
instance attribute. Had the branch seen the playback flag, the
iteration would have sent the silence filler instead. -/
theorem conversationIter_forwards_real_audio_during_playback :
    conversationIterAsExecuted true 0 [16, 1] =
      { sentToSTT := [[16, 1]], silenceCounter := 0, isListening := true
        readRealFrame := true, silenceAccounted := true } ∧
    conversationIterAsExecuted true 0 [16, 1] ≠ conversationIter true 0 [16, 1] ∧
    conversationIter true 0 [16, 1] =
      { sentToSTT := [fillerFrame], silenceCounter := 0, isListening := true
        readRealFrame := false, silenceAccounted := false } := by
  have e1 : conversationIterAsExecuted true 0 [16, 1] =
      { sentToSTT := [[16, 1]], silenceCounter := 0, isListening := true
        readRealFrame := true, silenceAccounted := true } := rfl
  have e3 : conversationIter true 0 [16, 1] =
      { sentToSTT := [fillerFrame], silenceCounter := 0, isListening := true
        readRealFrame := false, silenceAccounted := false } := rfl
  refine ⟨e1, ?_, e3⟩
  rw [e1, e3]
  intro h
  have hproj := congrArg IterOut.readRealFrame h
  simp at hproj

/-- C3 is false on the code as stated: in the state reached after the
retry budget is exhausted (`_reconnect_attempts = 5`, connection dead),
`_handle_connection_error` surfaces no error at all — it logs and
returns normally, attempting no connect — and the service is not
terminal: a subsequent `process_audio` call invokes the handler again
rather than failing with a `ConnectionError`. -/
theorem handleConnectionError_exhausted_surfaces_nothing :
    (handleConnectionError
        { connectionAlive := false, websocket := none, keepaliveTask := none
          messageHandlerTask := none, reconnectAttempts := 5, lastAudioTime := 0 }
        ConnectOutcome.success).surfacedError = none ∧
    (handleConnectionError
        { connectionAlive := false, websocket := none, keepaliveTask := none
          messageHandlerTask := none, reconnectAttempts := 5, lastAudioTime := 0 }
        ConnectOutcome.success).connectAttempted = false ∧
    (processAudio
        (handleConnectionError
            { connectionAlive := false, websocket := none, keepaliveTask := none
              messageHandlerTask := none, reconnectAttempts := 5, lastAudioTime := 0 }
            ConnectOutcome.success).state
        [1] 0 SendOutcome.delivered ConnectOutcome.success).handlerInvoked = true := by
  refine ⟨by decide, by decide, by decide⟩

/-- C3 amended: once the reconnect-attempt counter has reached the cap,
`_handle_connection_error` no longer sleeps or dials; it leaves the
attempt counter as it is, leaves `connection_alive` cleared, logs
"Max reconnection attempts reached", and returns normally — no
`ConnectionError` (or any exception) is surfaced to the caller, and
the service object is not put into a distinct closed state. -/
theorem handleConnectionError_exhausted (s : STTState) (o : ConnectOutcome)
    (h : MAX_RECONNECT_ATTEMPTS ≤ s.reconnectAttempts) :
    (handleConnectionError s o).surfacedError = none ∧
    (handleConnectionError s o).connectAttempted = false ∧
    (handleConnectionError s o).sleptSeconds = 0 ∧
    (handleConnectionError s o).state = { s with connectionAlive := false } := by
  unfold handleConnectionError
  have hlt : ¬ s.reconnectAttempts < MAX_RECONNECT_ATTEMPTS := by omega
  simp [hlt]

/-- Witness for the amended C3 theorem at a concrete exhausted state. -/
theorem handleConnectionError_exhausted_witness :
    (handleConnectionError
        { connectionAlive := true, websocket := some true, keepaliveTask := none
          messageHandlerTask := none, reconnectAttempts := 5, lastAudioTime := 7 }
        ConnectOutcome.dialFails).surfacedError = none ∧
    (handleConnectionError
        { connectionAlive := true, websocket := some true, keepaliveTask := none
          messageHandlerTask := none, reconnectAttempts := 5, lastAudioTime := 7 }
        ConnectOutcome.dialFails).connectAttempted = false ∧
    (handleConnectionError
        { connectionAlive := true, websocket := some true, keepaliveTask := none
          messageHandlerTask := none, reconnectAttempts := 5, lastAudioTime := 7 }
        ConnectOutcome.dialFails).sleptSeconds = 0 ∧
    (handleConnectionError
        { connectionAlive := true, websocket := some true, keepaliveTask := none
          messageHandlerTask := none, reconnectAttempts := 5, lastAudioTime := 7 }
        ConnectOutcome.dialFails).state =
      { connectionAlive := false, websocket := some true, keepaliveTask := none
        messageHandlerTask := none, reconnectAttempts := 5, lastAudioTime := 7 } :=
  handleConnectionError_exhausted
    { connectionAlive := true, websocket := some true, keepaliveTask := none
      messageHandlerTask := none, reconnectAttempts := 5, lastAudioTime := 7 }
    ConnectOutcome.dialFails (by decide)

/-- C4 is false on the code as stated: there is no outbound queue. A
frame submitted while the connection is down is dropped even though
the reconnect succeeds inside the very same call: afterwards the
connection is alive, a later frame is sent normally, and the dropped
frame never appears on the socket. -/
theorem processAudio_drops_frame_during_outage :
    (processAudio
        { connectionAlive := false, websocket := none, keepaliveTask := none
          messageHandlerTask := none, reconnectAttempts := 0, lastAudioTime := 0 }
        [1] 0 SendOutcome.delivered ConnectOutcome.success).sent = [] ∧
    (processAudio
        { connectionAlive := false, websocket := none, keepaliveTask := none
          messageHandlerTask := none, reconnectAttempts := 0, lastAudioTime := 0 }
        [1] 0 SendOutcome.delivered ConnectOutcome.success).returned = false ∧
    (processAudio
        { connectionAlive := false, websocket := none, keepaliveTask := none
          messageHandlerTask := none, reconnectAttempts := 0, lastAudioTime := 0 }
        [1] 0 SendOutcome.delivered ConnectOutcome.success).state.connectionAlive = true ∧
    (processAudio
        (processAudio
            { connectionAlive := false, websocket := none, keepaliveTask := none
              messageHandlerTask := none, reconnectAttempts := 0, lastAudioTime := 0 }
            [1] 0 SendOutcome.delivered ConnectOutcome.success).state
        [2] 1 SendOutcome.delivered ConnectOutcome.success).sent = [[2]] ∧
    [1] ∉ ((processAudio
        { connectionAlive := false, websocket := none, keepaliveTask := none
          messageHandlerTask := none, reconnectAttempts := 0, lastAudioTime := 0 }
        [1] 0 SendOutcome.delivered ConnectOutcome.success).sent ++
      (processAudio
          (processAudio
              { connectionAlive := false, websocket := none, keepaliveTask := none
                messageHandlerTask := none, reconnectAttempts := 0, lastAudioTime := 0 }
              [1] 0 SendOutcome.delivered ConnectOutcome.success).state
          [2] 1 SendOutcome.delivered ConnectOutcome.success).sent) := by
  refine ⟨by decide, by decide, by decide, by decide, by decide⟩

/-- C4 amended: `process_audio` is unbuffered. Each call either sends
exactly its own frame (returning `True`) or sends nothing (returning
`False`); in particular every frame submitted while the connection is
down is dropped, never queued and never retransmitted. -/
theorem processAudio_sends_only_own_frame (s : STTState) (a : List Nat)
    (now : Nat) (so : SendOutcome) (co : ConnectOutcome) :
    ((processAudio s a now so co).sent = [a] ∧
        (processAudio s a now so co).returned = true ∨
      (processAudio s a now so co).sent = [] ∧
        (processAudio s a now so co).returned = false) ∧
    (s.connectionAlive = false →
      (processAudio s a now so co).sent = [] ∧
        (processAudio s a now so co).returned = false) := by
  unfold processAudio
  by_cases h : s.connectionAlive = false
  · simp [h]
  · refine ⟨?_, fun hc => absurd hc h⟩
    cases hws : s.websocket with
    | none => simp [h, hws]
    | some b =>
      cases b
      · simp [h, hws]
      · cases so <;> simp [h, hws]

/-- Witness for the amended C4 theorem: a concrete frame submitted on a
dead connection is dropped and the call returns `False`. -/
theorem processAudio_sends_only_own_frame_witness :
    (processAudio
        { connectionAlive := false, websocket := none, keepaliveTask := none
          messageHandlerTask := none, reconnectAttempts := 5, lastAudioTime := 0 }
        [7] 3 SendOutcome.delivered ConnectOutcome.dialFails).sent = [] ∧
    (processAudio
        { connectionAlive := false, websocket := none, keepaliveTask := none
          messageHandlerTask := none, reconnectAttempts := 5, lastAudioTime := 0 }
        [7] 3 SendOutcome.delivered ConnectOutcome.dialFails).returned = false :=
  (processAudio_sends_only_own_frame
      { connectionAlive := false, websocket := none, keepaliveTask := none
        messageHandlerTask := none, reconnectAttempts := 5, lastAudioTime := 0 }
      [7] 3 SendOutcome.delivered ConnectOutcome.dialFails).2 rfl

/-- C5 is false on the code as stated: the voice session never resets the
inactivity timer. The timer starts with both `threading.Timer`s absent
(`__init__` sets them to `None`), and a completed turn — whose code
path contains no `self.timer` call — leaves them absent, which is not
the state any `reset` produces. -/
theorem voiceTurn_leaves_timer_unset :
    (voiceTurnTimer timerInit).inactivityDeadline = none ∧
    (voiceTurnTimer timerInit).warningDeadline = none ∧
    voiceTurnTimer timerInit ≠ timerReset 0 timerInit := by
  refine ⟨rfl, rfl, ?_⟩
  intro h
  have hproj := congrArg TimerState.inactivityDeadline h
  simp [voiceTurnTimer, timerInit, timerReset] at hproj

/-- C5 amended: `InactivityTimer.reset` does arm both deadlines relative
to the call time (timeout at +300 s, warning at +250 s), but the voice
session never invokes `start` or `reset`: a completed turn leaves the
timer state unchanged, and `cleanup` only stops it. -/
theorem timerReset_sets_both_deadlines (now : Nat) (t : TimerState) :
    timerReset now t =
      { inactivityDeadline := some (now + INACTIVITY_TIMEOUT)
        warningDeadline := some (now + WARNING_PROMPT_TIME) } ∧
    INACTIVITY_TIMEOUT = 300 ∧ WARNING_PROMPT_TIME = 250 ∧
    voiceTurnTimer t = t ∧
    voiceCleanupTimer t = { inactivityDeadline := none, warningDeadline := none } :=
  ⟨rfl, rfl, rfl, rfl, rfl⟩

/-- C6: a `False` from `wake_word_detector.initialize()` in
`VoiceMode.run` is fatal to the voice session — the failure is logged,
the conversation loop is never entered, no exception escapes, and
`initialize()` is not called again by `run`. -/
theorem voiceRun_wake_init_failure_fatal :
    voiceRun false false =
      { wakeInitCalls := 1, loggedFailure := true
        enteredConversationLoop := false, raised := false } := rfl

/-- C7: the Claude call in `process_input` is awaited under a 60-second
`wait_for`; a timeout yields the fixed timeout apology, an exception
yields the fixed error apology, and in every case the function returns
a string — either one of the three apologies or the handler's own
response — so the turn continues. -/
theorem processInput_failure_returns_apology (ctx : AwaitOutcome String)
    (llm : AwaitOutcome String) (store : AwaitOutcome Unit)
    (hctx : ctx ≠ AwaitOutcome.raised) :
    LLM_TURN_TIMEOUT = 60 ∧
    processInput ctx AwaitOutcome.timedOut store = apologyTimeout ∧
    processInput ctx AwaitOutcome.raised store = apologyError ∧
    (processInput ctx llm store = apologyTimeout ∨
      processInput ctx llm store = apologyError ∨
      processInput ctx llm store = apologyEmpty ∨
      ∃ r, llm = AwaitOutcome.ok r ∧ processInput ctx llm store = r) := by
  cases ctx with
  | raised => exact absurd rfl hctx
  | ok c =>
    refine ⟨rfl, rfl, rfl, ?_⟩
    cases llm with
    | timedOut => exact Or.inl rfl
    | raised => exact Or.inr (Or.inl rfl)
    | ok r =>
      by_cases hr : pyStrip r = ""
      · exact Or.inr (Or.inr (Or.inl (by simp [processInput, hr])))
      · cases store with
        | raised => exact Or.inr (Or.inl (by simp [processInput, hr]))
        | ok u => exact Or.inr (Or.inr (Or.inr ⟨r, rfl, by simp [processInput, hr]⟩))
        | timedOut => exact Or.inr (Or.inr (Or.inr ⟨r, rfl, by simp [processInput, hr]⟩))
  | timedOut =>
    refine ⟨rfl, rfl, rfl, ?_⟩
    cases llm with
    | timedOut => exact Or.inl rfl
    | raised => exact Or.inr (Or.inl rfl)
    | ok r =>
      by_cases hr : pyStrip r = ""
      · exact Or.inr (Or.inr (Or.inl (by simp [processInput, hr])))
      · cases store with
        | raised => exact Or.inr (Or.inl (by simp [processInput, hr]))
        | ok u => exact Or.inr (Or.inr (Or.inr ⟨r, rfl, by simp [processInput, hr]⟩))
        | timedOut => exact Or.inr (Or.inr (Or.inr ⟨r, rfl, by simp [processInput, hr]⟩))

/-- Witness for C7 at concrete outcomes: with context available, a timed
out Claude call yields the timeout apology, and a successful call
returns its own response. -/
theorem processInput_failure_returns_apology_witness :
    LLM_TURN_TIMEOUT = 60 ∧
    processInput (AwaitOutcome.ok "old context") AwaitOutcome.timedOut
        (AwaitOutcome.ok ()) = apologyTimeout ∧
    processInput (AwaitOutcome.ok "old context") AwaitOutcome.raised
        (AwaitOutcome.ok ()) = apologyError ∧
    (processInput (AwaitOutcome.ok "old context") (AwaitOutcome.ok "It's sunny")
          (AwaitOutcome.ok ()) = apologyTimeout ∨
      processInput (AwaitOutcome.ok "old context") (AwaitOutcome.ok "It's sunny")
          (AwaitOutcome.ok ()) = apologyError ∨
      processInput (AwaitOutcome.ok "old context") (AwaitOutcome.ok "It's sunny")
          (AwaitOutcome.ok ()) = apologyEmpty ∨
      ∃ r, (AwaitOutcome.ok "It's sunny" : AwaitOutcome String) = AwaitOutcome.ok r ∧
        processInput (AwaitOutcome.ok "old context") (AwaitOutcome.ok "It's sunny")
          (AwaitOutcome.ok ()) = r) :=
  processInput_failure_returns_apology (AwaitOutcome.ok "old context")
    (AwaitOutcome.ok "It's sunny") (AwaitOutcome.ok ()) (by simp)

/-- Cancelling twice is the same as cancelling once. -/
theorem cancelTask_idem (t : Option TaskStatus) :
    cancelTask (cancelTask t) = cancelTask t := by
  rcases t with _ | tk
  · rfl
  · cases tk <;> rfl

/-- After the close step, a task slot is absent or terminal. -/
theorem taskDoneOrAbsent_cancelTask (t : Option TaskStatus) :
    taskDoneOrAbsent (cancelTask t) = true := by
  rcases t with _ | tk
  · rfl
  · cases tk <;> rfl

/-- C8: `STTService.close` is idempotent and raises nothing — after a
close the websocket handle is cleared, the connection-alive flag is
down, both spawned tasks are absent or terminal, and a second close
leaves the state exactly as the first left it. -/
theorem closeSvc_idempotent (s : STTState) :
    closeSvc (closeSvc s) = closeSvc s ∧
    (closeSvc s).websocket = none ∧
    (closeSvc s).connectionAlive = false ∧
    taskDoneOrAbsent (closeSvc s).keepaliveTask = true ∧
    taskDoneOrAbsent (closeSvc s).messageHandlerTask = true := by
  rcases s with ⟨a, w, k, m, r, l⟩
  refine ⟨?_, rfl, rfl, ?_, ?_⟩
  · simp [closeSvc, cleanupConnection, cancelTask_idem]
  · exact taskDoneOrAbsent_cancelTask k
  · exact taskDoneOrAbsent_cancelTask m

/-- Below the cap, `_handle_connection_error` sleeps the linear backoff
and dials exactly once, raising nothing. -/
theorem handleConnectionError_below_cap (s : STTState) (o : ConnectOutcome)
    (h : s.reconnectAttempts < MAX_RECONNECT_ATTEMPTS) :
    (handleConnectionError s o).connectAttempted = true ∧
    (handleConnectionError s o).sleptSeconds =
      RECONNECT_DELAY * (s.reconnectAttempts + 1) ∧
    (handleConnectionError s o).surfacedError = none := by
  unfold handleConnectionError
  simp only [h, if_true]
  rcases hcs : connectSvc
      { s with connectionAlive := false, reconnectAttempts := s.reconnectAttempts + 1 } o
    with ⟨s2, ok⟩
  cases ok <;> simp [hcs]

/-- C10 is false on the code as stated: in the reachable state where the
connection-alive flag is cleared and the retry budget is already
exhausted, a `process_audio` call does return `False` without sending,
but it performs no backoff sleep and no connect attempt — the
"reconnection procedure (backoff sleep and a new connect attempt)"
the claim promises does not run. -/
theorem processAudio_exhausted_no_reconnect :
    (processAudio
        { connectionAlive := false, websocket := none, keepaliveTask := none
          messageHandlerTask := none, reconnectAttempts := 5, lastAudioTime := 0 }
        [1] 0 SendOutcome.delivered ConnectOutcome.success).returned = false ∧
    (processAudio
        { connectionAlive := false, websocket := none, keepaliveTask := none
          messageHandlerTask := none, reconnectAttempts := 5, lastAudioTime := 0 }
        [1] 0 SendOutcome.delivered ConnectOutcome.success).sent = [] ∧
    (processAudio
        { connectionAlive := false, websocket := none, keepaliveTask := none
          messageHandlerTask := none, reconnectAttempts := 5, lastAudioTime := 0 }
        [1] 0 SendOutcome.delivered ConnectOutcome.success).connectAttempted = false ∧
    (processAudio
        { connectionAlive := false, websocket := none, keepaliveTask := none
          messageHandlerTask := none, reconnectAttempts := 5, lastAudioTime := 0 }
        [1] 0 SendOutcome.delivered ConnectOutcome.success).sleptSeconds = 0 := by
  refine ⟨by decide, by decide, by decide, by decide⟩

/-- C10 amended: whenever the connection-alive flag is cleared —
including after `close()` — `process_audio` sends nothing, returns
`False`, and invokes `_handle_connection_error`; the handler performs
the backoff sleep and one connect attempt only while the attempt
counter is below `MAX_RECONNECT_ATTEMPTS` (5), and at or above the cap
it only logs, so a closed session is non-terminal for the service
object exactly while retry budget remains. -/
theorem processAudio_dead_connection (s : STTState) (a : List Nat)
    (now : Nat) (so : SendOutcome) (co : ConnectOutcome)
    (h : s.connectionAlive = false) :
    (processAudio s a now so co).sent = [] ∧
    (processAudio s a now so co).returned = false ∧
    (processAudio s a now so co).handlerInvoked = true ∧
    (s.reconnectAttempts < MAX_RECONNECT_ATTEMPTS →
      (processAudio s a now so co).connectAttempted = true ∧
      (processAudio s a now so co).sleptSeconds =
        RECONNECT_DELAY * (s.reconnectAttempts + 1)) ∧
    (MAX_RECONNECT_ATTEMPTS ≤ s.reconnectAttempts →
      (processAudio s a now so co).connectAttempted = false ∧
      (processAudio s a now so co).sleptSeconds = 0) := by
  unfold processAudio
  rw [if_pos h]
  refine ⟨rfl, rfl, rfl, ?_, ?_⟩
  · intro hlt
    have hb := handleConnectionError_below_cap s co hlt
    exact ⟨hb.1, hb.2.1⟩
  · intro hge
    have he := handleConnectionError_exhausted s co hge
    exact ⟨he.2.1, he.2.2.1⟩

/-- Witness for the amended C10 theorem: a call made directly after
`close()` on a healthy session sends nothing, returns `False`, and —
the budget being intact — sleeps the 2 s backoff and dials once. -/
theorem processAudio_dead_connection_witness :
    (processAudio
        (closeSvc
          { connectionAlive := true, websocket := some true
            keepaliveTask := some TaskStatus.running
            messageHandlerTask := some TaskStatus.running
            reconnectAttempts := 0, lastAudioTime := 3 })
        [9] 4 SendOutcome.delivered ConnectOutcome.success).sent = [] ∧
    (processAudio
        (closeSvc
          { connectionAlive := true, websocket := some true
            keepaliveTask := some TaskStatus.running
            messageHandlerTask := some TaskStatus.running
            reconnectAttempts := 0, lastAudioTime := 3 })
        [9] 4 SendOutcome.delivered ConnectOutcome.success).returned = false ∧
    (processAudio
        (closeSvc
          { connectionAlive := true, websocket := some true
            keepaliveTask := some TaskStatus.running
            messageHandlerTask := some TaskStatus.running
            reconnectAttempts := 0, lastAudioTime := 3 })
        [9] 4 SendOutcome.delivered ConnectOutcome.success).handlerInvoked = true ∧
    ((closeSvc
          { connectionAlive := true, websocket := some true
            keepaliveTask := some TaskStatus.running
            messageHandlerTask := some TaskStatus.running
            reconnectAttempts := 0, lastAudioTime := 3 }).reconnectAttempts <
        MAX_RECONNECT_ATTEMPTS →
      (processAudio
          (closeSvc
            { connectionAlive := true, websocket := some true
              keepaliveTask := some TaskStatus.running
              messageHandlerTask := some TaskStatus.running
              reconnectAttempts := 0, lastAudioTime := 3 })
          [9] 4 SendOutcome.delivered ConnectOutcome.success).connectAttempted = true ∧
      (processAudio
          (closeSvc
            { connectionAlive := true, websocket := some true
              keepaliveTask := some TaskStatus.running
              messageHandlerTask := some TaskStatus.running
              reconnectAttempts := 0, lastAudioTime := 3 })
          [9] 4 SendOutcome.delivered ConnectOutcome.success).sleptSeconds =
        RECONNECT_DELAY *
          ((closeSvc
              { connectionAlive := true, websocket := some true
                keepaliveTask := some TaskStatus.running
                messageHandlerTask := some TaskStatus.running
                reconnectAttempts := 0, lastAudioTime := 3 }).reconnectAttempts + 1)) ∧
    (MAX_RECONNECT_ATTEMPTS ≤
        (closeSvc
            { connectionAlive := true, websocket := some true
              keepaliveTask := some TaskStatus.running
              messageHandlerTask := some TaskStatus.running
              reconnectAttempts := 0, lastAudioTime := 3 }).reconnectAttempts →
      (processAudio
          (closeSvc
            { connectionAlive := true, websocket := some true
              keepaliveTask := some TaskStatus.running
              messageHandlerTask := some TaskStatus.running
              reconnectAttempts := 0, lastAudioTime := 3 })
          [9] 4 SendOutcome.delivered ConnectOutcome.success).connectAttempted = false ∧
      (processAudio
          (closeSvc
            { connectionAlive := true, websocket := some true
              keepaliveTask := some TaskStatus.running
              messageHandlerTask := some TaskStatus.running
              reconnectAttempts := 0, lastAudioTime := 3 })
          [9] 4 SendOutcome.delivered ConnectOutcome.success).sleptSeconds = 0) :=
  processAudio_dead_connection
    (closeSvc
      { connectionAlive := true, websocket := some true
        keepaliveTask := some TaskStatus.running
        messageHandlerTask := some TaskStatus.running
        reconnectAttempts := 0, lastAudioTime := 3 })
    [9] 4 SendOutcome.delivered ConnectOutcome.success (by decide)

end Aida
